import Mathlib

/-!
Shallow embedding of `src/octoprint/environment.py` (class `EnvironmentDetector`).

Python values appearing in environment snapshots are modelled by `EnvValue`;
Python dicts are insertion-ordered association lists (`EnvDict`).  External
lookups that may raise (`get_os()`, `platform.python_version()`, the psutil
calls, plugin calls, ...) are modelled as `Except Unit` oracles carried by a
`SysEnv` record; the numeric results of the psutil calls are carried as `Int`
(their exact numeric type is irrelevant to the control flow being verified).

Object identity (Python's aliasing, `copy.deepcopy`) is modelled by a small
heap: a snapshot lives in a heap cell addressed by a `Ref`; `copy.deepcopy`
allocates a fresh cell holding an equal value, and mutation overwrites a cell.
A snapshot value is pure once inside a cell, so one level of indirection is
enough to distinguish "returns the cache object itself" from "returns an
independent copy", which is the distinction the specification talks about.
-/

namespace OctoPrintEnvironment

/-- A Python value as it occurs in environment snapshots: `None`, a string,
a number, or a dict. -/
inductive EnvValue where
  | vNone : EnvValue
  | str : String → EnvValue
  | int : Int → EnvValue
  | dict : List (String × EnvValue) → EnvValue

/-- A Python dict with string keys, as an insertion-ordered association list. -/
abbrev EnvDict := List (String × EnvValue)

/-- Python dict assignment `d[k] = v`: replace the value at the first
occurrence of `k`, keeping its position, or append `(k, v)` at the end. -/
def dictSet : EnvDict → String → EnvValue → EnvDict
  | [], k, v => [(k, v)]
  | (k', v') :: rest, k, v =>
      if k' = k then (k', v) :: rest else (k', v') :: dictSet rest k v

/-- Python dict lookup `d.get(k)`. -/
def dictGet : EnvDict → String → Option EnvValue
  | [], _ => none
  | (k', v') :: rest, k => if k' = k then some v' else dictGet rest k

theorem dictGet_dictSet_self (d : EnvDict) (k : String) (v : EnvValue) :
    dictGet (dictSet d k v) k = some v := by
  induction d with
  | nil => simp [dictSet, dictGet]
  | cons hd tl ih =>
      obtain ⟨k', v'⟩ := hd
      by_cases h : k' = k
      · simp [dictSet, dictGet, h]
      · simp [dictSet, dictGet, h, ih]

theorem dictGet_dictSet_ne (d : EnvDict) (k k' : String) (v : EnvValue)
    (h : k' ≠ k) : dictGet (dictSet d k v) k' = dictGet d k' := by
  induction d with
  | nil => simp [dictSet, dictGet, Ne.symm h]
  | cons hd tl ih =>
      obtain ⟨k0, v0⟩ := hd
      by_cases h0 : k0 = k
      · subst h0
        simp [dictSet, dictGet, Ne.symm h]
      · simp [dictSet, dictGet, h0, ih]

/-- The external lookups used by the detector, as oracles.  An `Except Unit`
result models a Python call that either returns a value or raises.
`sys_platform` is a plain attribute read and cannot raise.  For
`psutil.cpu_count()` the `Option` is `None`-or-int; for `psutil.cpu_freq()`
and `psutil.virtual_memory()` the outer `Option` is `None`-or-object and the
inner one models `hasattr(_, "max")` / `hasattr(_, "total")`. -/
structure SysEnv where
  get_os : Except Unit String
  sys_platform : String
  python_version : Except Unit String
  virtualenv_check : Except Unit (Option String)
  pip_version : Except Unit String
  cpu_count : Except Unit (Option Int)
  cpu_freq : Except Unit (Option (Option Int))
  virtual_memory : Except Unit (Option (Option Int))

/-- One plugin implementation from `plugin_manager.get_implementations`:
its `_identifier`, the outcome of `get_additional_environment()` (raise or a
Python value), and whether `on_environment_detected(...)` raises. -/
structure Plugin where
  identifier : String
  get_additional_environment : Except Unit EnvValue
  on_environment_detected_raises : Bool

/-- `_detect_os`: `dict(id=get_os(), platform=sys.platform)`.  `get_os()` is
called with no surrounding handler, so its exception propagates. -/
def _detect_os (se : SysEnv) : Except Unit EnvDict :=
  match se.get_os with
  | .error e => .error e
  | .ok osid => .ok [("id", .str osid), ("platform", .str se.sys_platform)]

/-- `_detect_python`: starts from `dict(version="unknown", pip="unknown")`,
then fills `version`, `virtualenv` and `pip` under three separate
exception handlers; a failing lookup leaves its default in place. -/
def _detect_python (se : SysEnv) : EnvDict :=
  let r0 : EnvDict := [("version", .str "unknown"), ("pip", .str "unknown")]
  let r1 := match se.python_version with
    | .ok v => dictSet r0 "version" (.str v)
    | .error _ => r0
  let r2 := match se.virtualenv_check with
    | .ok (some p) => dictSet r1 "virtualenv" (.str p)
    | _ => r1
  match se.pip_version with
  | .ok v => dictSet r2 "pip" (.str v)
  | .error _ => r2

/-- `_detect_hardware`: starts from all-"unknown" and performs the three
psutil lookups inside ONE `try` block; an exception in any lookup aborts the
whole block and every field keeps its "unknown" default.  A lookup that
returns a falsy / attribute-less value (without raising) only skips its own
field. -/
def _detect_hardware (se : SysEnv) : EnvDict :=
  let r0 : EnvDict :=
    [("cores", .str "unknown"), ("freq", .str "unknown"), ("ram", .str "unknown")]
  match se.cpu_count with
  | .error _ => r0
  | .ok cores =>
    match se.cpu_freq with
    | .error _ => r0
    | .ok cpu_freq =>
      match se.virtual_memory with
      | .error _ => r0
      | .ok ram =>
        let r1 := match cores with
          | some n => if n ≠ 0 then dictSet r0 "cores" (.int n) else r0
          | none => r0
        let r2 := match cpu_freq with
          | some (some m) => dictSet r1 "freq" (.int m)
          | _ => r1
        match ram with
        | some (some t) => dictSet r2 "ram" (.int t)
        | _ => r2

/-- `_detect_from_plugins` loop: each iteration first calls the plugin's
`get_additional_environment()` (recorded in the invocation log `calls`), then,
inside the per-plugin handler, records a returned non-`None`, dict-typed,
non-empty value under the plugin's identifier; a raising plugin only logs and
the loop continues. -/
def _detect_from_plugins_aux : List Plugin → EnvDict → List String → EnvDict × List String
  | [], result, calls => (result, calls)
  | impl :: rest, result, calls =>
      let calls' := calls ++ [impl.identifier]
      match impl.get_additional_environment with
      | .error _ => _detect_from_plugins_aux rest result calls'
      | .ok (.dict entries) =>
          if 0 < entries.length then
            _detect_from_plugins_aux rest (dictSet result impl.identifier (.dict entries)) calls'
          else
            _detect_from_plugins_aux rest result calls'
      | .ok _ => _detect_from_plugins_aux rest result calls'

/-- `_detect_from_plugins`: the collected `plugins` section together with the
ordered log of plugins whose detection method was invoked. -/
def _detect_from_plugins (plugins : List Plugin) : EnvDict × List String :=
  _detect_from_plugins_aux plugins [] []

/-- A heap address of a snapshot object. -/
abbrev Ref := Nat

/-- The fixed collaborators of one `EnvironmentDetector` instance: the system
oracles and the plugin list resolved once in `__init__`. -/
structure EnvironmentDetector where
  sysenv : SysEnv
  environment_plugins : List Plugin

/-- The mutable state of one detector instance: `self._cache` (a reference or
`None`), the heap of allocated snapshot objects, the next fresh address, an
instrumentation counter of started detection passes, and the ordered log of
`on_environment_detected` deliveries (plugin identifier, snapshot value
passed). -/
structure DState where
  cache : Option Ref
  heap : Ref → EnvDict
  next : Ref
  passes : Nat
  notifications : List (String × EnvDict)

/-- The state of a freshly constructed detector: uninitialized cache. -/
def initState : DState :=
  { cache := none, heap := fun _ => [], next := 0, passes := 0, notifications := [] }

/-- Overwrite one heap cell. -/
def heapWrite (h : Ref → EnvDict) (r : Ref) (v : EnvDict) : Ref → EnvDict :=
  fun c => if c = r then v else h c

/-- Allocate a fresh object holding value `v` (used for `dict()` literals and
for `copy.deepcopy`), returning its address. -/
def alloc (s : DState) (v : EnvDict) : Ref × DState :=
  (s.next, { s with heap := heapWrite s.heap s.next v, next := s.next + 1 })

/-- Read the object at address `r`. -/
def deref (s : DState) (r : Ref) : EnvDict := s.heap r

/-- An external in-place mutation of the object at address `r` (e.g. a caller
doing `snapshot["key"] = ...` on a returned record). -/
def mutate (s : DState) (r : Ref) (v : EnvDict) : DState :=
  { s with heap := heapWrite s.heap r v }

/-- The value of `self._cache` (`none` while uninitialized). -/
def cacheValue (s : DState) : Option EnvDict := s.cache.map (deref s)

/-- Well-formedness of a detector state: the cache, when set, points below the
allocation frontier.  Every reachable state satisfies this. -/
def StateWF (s : DState) : Bool :=
  match s.cache with
  | none => true
  | some c => decide (c < s.next)

/-- The aggregate record built by the `try` body of `run_detection` once
`_detect_os` has returned `osdict`: assign `os`, `python`, `hardware`, then
add `plugins` only if `_detect_from_plugins()` returned a truthy (non-empty)
dict. -/
def buildEnvironment (d : EnvironmentDetector) (osdict : EnvDict) : EnvDict :=
  let e1 := dictSet [] "os" (.dict osdict)
  let e2 := dictSet e1 "python" (.dict (_detect_python d.sysenv))
  let e3 := dictSet e2 "hardware" (.dict (_detect_hardware d.sysenv))
  let plugin_result := (_detect_from_plugins d.environment_plugins).1
  if 0 < plugin_result.length then dictSet e3 "plugins" (.dict plugin_result) else e3

/-- One pass of `run_detection` without the `notify_plugins` step: on success
(`true`) the built record is allocated and stored as the cache; if
`_detect_os` raises, the handler at the bottom of `run_detection` allocates a
fresh empty `dict()` and stores it as the cache (`false`).  In both branches
the returned reference is the cache object itself (`return environment` /
`return self._cache`), not a copy. -/
def run_detection_pass (d : EnvironmentDetector) (s : DState) : Bool × Ref × DState :=
  let s0 := { s with passes := s.passes + 1 }
  match _detect_os d.sysenv with
  | .error _ =>
      let a := alloc s0 []
      (false, a.1, { a.2 with cache := some a.1 })
  | .ok osdict =>
      let a := alloc s0 (buildEnvironment d osdict)
      (true, a.1, { a.2 with cache := some a.1 })

/-- `notify_plugins`: under the cache lock, run a detection pass with
notification disabled if the cache is uninitialized, then deep-copy the cache
and call `on_environment_detected` on every plugin implementation (each call
individually guarded, so a raising plugin is still an invocation and the loop
continues).  The second `match` arm is dead code: a pass always sets the
cache. -/
def notify_plugins (d : EnvironmentDetector) (s : DState) : DState :=
  let s1 := match s.cache with
    | none => (run_detection_pass d s).2.2
    | some _ => s
  match s1.cache with
  | none => s1
  | some c =>
      let envval := deref s1 c
      let s2 := (alloc s1 envval).2
      { s2 with
        notifications :=
          s2.notifications ++ d.environment_plugins.map (fun p => (p.identifier, envval)) }

/-- `run_detection(notify_plugins=...)`: the pass, then — only when the `try`
body completed (the exception handler returns before the notify step) and
notification was requested — `self.notify_plugins()`. -/
def run_detection (d : EnvironmentDetector) (notifyPlugins : Bool) (s : DState) :
    Ref × DState :=
  let p := run_detection_pass d s
  if p.1 && notifyPlugins then (p.2.1, notify_plugins d p.2.2) else (p.2.1, p.2.2)

/-- The `environment` property: under the cache lock, run
`run_detection()` (with its default `notify_plugins=True`) if the cache is
uninitialized, then return `copy.deepcopy(self._cache)`.  The `.getD []`
default is unreachable: the cache is set at that point. -/
def environment (d : EnvironmentDetector) (s : DState) : Ref × DState :=
  let s1 := match s.cache with
    | none => (run_detection d true s).2
    | some _ => s
  alloc s1 ((s1.cache.map (deref s1)).getD [])

/-- A concrete oracle assignment on which every lookup succeeds. -/
def exSysEnv : SysEnv :=
  { get_os := .ok "linux", sys_platform := "linux2",
    python_version := .ok "2.7.18", virtualenv_check := .ok none,
    pip_version := .ok "19.3.1", cpu_count := .ok (some 4),
    cpu_freq := .ok (some (some 1400)), virtual_memory := .ok (some (some 1073741824)) }

/-- A concrete oracle assignment on which every lookup raises. -/
def failSysEnv : SysEnv :=
  { get_os := .error (), sys_platform := "linux2",
    python_version := .error (), virtualenv_check := .error (),
    pip_version := .error (), cpu_count := .error (),
    cpu_freq := .error (), virtual_memory := .error () }

/-- Oracles where only the CPU-count lookup raises while the frequency and
RAM lookups would return real values. -/
def cpuFailSysEnv : SysEnv :=
  { get_os := .ok "linux", sys_platform := "linux2",
    python_version := .ok "2.7.18", virtualenv_check := .ok none,
    pip_version := .ok "19.3.1", cpu_count := .error (),
    cpu_freq := .ok (some (some 1500)), virtual_memory := .ok (some (some 4096)) }

/-- A plugin whose detection and notification methods both raise. -/
def failPlugin : Plugin :=
  { identifier := "broken", get_additional_environment := .error (),
    on_environment_detected_raises := true }

/-- A plugin contributing the single fact `{"key": "value"}`. -/
def goodPlugin : Plugin :=
  { identifier := "good",
    get_additional_environment := .ok (.dict [("key", .str "value")]),
    on_environment_detected_raises := false }

/-- A detector with working oracles and no plugins. -/
def exDetector : EnvironmentDetector :=
  { sysenv := exSysEnv, environment_plugins := [] }

/-- A detector with working oracles, one raising plugin and one contributing
plugin. -/
def exDetector2 : EnvironmentDetector :=
  { sysenv := exSysEnv, environment_plugins := [failPlugin, goodPlugin] }

/-- A detector on which every oracle and every plugin raises. -/
def failDetector : EnvironmentDetector :=
  { sysenv := failSysEnv, environment_plugins := [failPlugin] }

/-! Structural lemmas about the heap and the detector operations. -/

theorem deref_alloc_self (s : DState) (v : EnvDict) :
    deref (alloc s v).2 (alloc s v).1 = v := by
  simp [alloc, deref, heapWrite]

theorem deref_alloc_ne (s : DState) (v : EnvDict) (c : Ref) (h : c ≠ s.next) :
    deref (alloc s v).2 c = deref s c := by
  simp [alloc, deref, heapWrite, h]

theorem cacheValue_alloc (s : DState) (v : EnvDict) (c : Ref) (h : s.cache = some c)
    (hlt : c < s.next) : cacheValue (alloc s v).2 = cacheValue s := by
  simp [cacheValue, alloc, h, deref, heapWrite, Nat.ne_of_lt hlt]

theorem run_detection_pass_ref (d : EnvironmentDetector) (s : DState) :
    (run_detection_pass d s).2.1 = s.next := by
  cases h : _detect_os d.sysenv <;> simp [run_detection_pass, h, alloc]

theorem run_detection_pass_cache (d : EnvironmentDetector) (s : DState) :
    (run_detection_pass d s).2.2.cache = some s.next := by
  cases h : _detect_os d.sysenv <;> simp [run_detection_pass, h, alloc]

theorem run_detection_pass_next (d : EnvironmentDetector) (s : DState) :
    (run_detection_pass d s).2.2.next = s.next + 1 := by
  cases h : _detect_os d.sysenv <;> simp [run_detection_pass, h, alloc]

theorem run_detection_pass_passes (d : EnvironmentDetector) (s : DState) :
    (run_detection_pass d s).2.2.passes = s.passes + 1 := by
  cases h : _detect_os d.sysenv <;> simp [run_detection_pass, h, alloc]

theorem run_detection_pass_notifications (d : EnvironmentDetector) (s : DState) :
    (run_detection_pass d s).2.2.notifications = s.notifications := by
  cases h : _detect_os d.sysenv <;> simp [run_detection_pass, h, alloc]

theorem run_detection_pass_deref_ne (d : EnvironmentDetector) (s : DState) (c : Ref)
    (h : c ≠ s.next) : deref (run_detection_pass d s).2.2 c = deref s c := by
  cases h0 : _detect_os d.sysenv <;> simp [run_detection_pass, h0, alloc, deref, heapWrite, h]

theorem run_detection_pass_val_error (d : EnvironmentDetector) (s : DState)
    (h : d.sysenv.get_os = .error ()) :
    (run_detection_pass d s).1 = false ∧ deref (run_detection_pass d s).2.2 s.next = [] := by
  simp [run_detection_pass, _detect_os, h, alloc, deref, heapWrite]

theorem run_detection_pass_val_ok (d : EnvironmentDetector) (s : DState) (o : String)
    (h : d.sysenv.get_os = .ok o) :
    (run_detection_pass d s).1 = true ∧
    deref (run_detection_pass d s).2.2 s.next =
      buildEnvironment d [("id", .str o), ("platform", .str d.sysenv.sys_platform)] := by
  simp [run_detection_pass, _detect_os, h, alloc, deref, heapWrite]

theorem run_detection_pass_ok_get_os (d : EnvironmentDetector) (s : DState)
    (hok : (run_detection_pass d s).1 = true) : ∃ o, d.sysenv.get_os = .ok o := by
  cases h : d.sysenv.get_os with
  | error e => exact absurd hok (by simp [(run_detection_pass_val_error d s h).1])
  | ok o => exact ⟨o, rfl⟩

theorem notify_plugins_cached_eq (d : EnvironmentDetector) (s : DState) (c : Ref)
    (h : s.cache = some c) :
    notify_plugins d s =
      { s with
        heap := heapWrite s.heap s.next (deref s c),
        next := s.next + 1,
        notifications := s.notifications ++
          d.environment_plugins.map (fun p => (p.identifier, deref s c)) } := by
  simp [notify_plugins, h, alloc]

theorem notify_plugins_cached_fields (d : EnvironmentDetector) (s : DState) (c : Ref)
    (h : s.cache = some c) :
    (notify_plugins d s).cache = some c ∧
    (notify_plugins d s).next = s.next + 1 ∧
    (notify_plugins d s).passes = s.passes ∧
    (notify_plugins d s).notifications = s.notifications ++
      d.environment_plugins.map (fun p => (p.identifier, deref s c)) ∧
    ∀ c', c' ≠ s.next → deref (notify_plugins d s) c' = deref s c' := by
  rw [notify_plugins_cached_eq d s c h]
  refine ⟨h, rfl, rfl, rfl, ?_⟩
  intro c' hc'
  simp [deref, heapWrite, hc']

theorem notify_plugins_uncached_eq (d : EnvironmentDetector) (s : DState)
    (h : s.cache = none) :
    notify_plugins d s = notify_plugins d (run_detection_pass d s).2.2 := by
  have hc := run_detection_pass_cache d s
  simp [notify_plugins, h, hc]

theorem run_detection_post (d : EnvironmentDetector) (n : Bool) (s : DState) :
    (run_detection d n s).1 = s.next ∧
    (run_detection d n s).2.cache = some s.next ∧
    s.next < (run_detection d n s).2.next ∧
    (run_detection d n s).2.passes = s.passes + 1 := by
  have hr := run_detection_pass_ref d s
  have hc := run_detection_pass_cache d s
  have hn := run_detection_pass_next d s
  have hp := run_detection_pass_passes d s
  cases hb : ((run_detection_pass d s).1 && n) with
  | false => simp [run_detection, hb, hr, hc, hn, hp]
  | true =>
      obtain ⟨f1, f2, f3, f4⟩ := notify_plugins_cached_fields d (run_detection_pass d s).2.2 s.next hc
      refine ⟨by simp [run_detection, hb, hr], by simp [run_detection, hb, f1], ?_, ?_⟩
      · have h1 : (run_detection d n s).2.next = s.next + 1 + 1 := by
          simp [run_detection, hb, f2, hn]
        rw [h1]
        exact Nat.lt_succ_of_lt (Nat.lt_succ_self s.next)
      · simp [run_detection, hb, f3, hp]

theorem run_detection_deref_lt (d : EnvironmentDetector) (n : Bool) (s : DState) (c : Ref)
    (h : c < s.next) : deref (run_detection d n s).2 c = deref s c := by
  have hc := run_detection_pass_cache d s
  have hn := run_detection_pass_next d s
  have hd := run_detection_pass_deref_ne d s c (Nat.ne_of_lt h)
  cases hb : ((run_detection_pass d s).1 && n) with
  | false => simp [run_detection, hb, hd]
  | true =>
      obtain ⟨f1, f2, f3, f4, f5⟩ := notify_plugins_cached_fields d (run_detection_pass d s).2.2 s.next hc
      have hne : c ≠ (run_detection_pass d s).2.2.next := by
        rw [hn]; exact Nat.ne_of_lt (Nat.lt_succ_of_lt h)
      simp [run_detection, hb, f5 c hne, hd]

theorem run_detection_cache_val_error (d : EnvironmentDetector) (n : Bool) (s : DState)
    (h : d.sysenv.get_os = .error ()) :
    deref (run_detection d n s).2 s.next = [] ∧
    (run_detection d n s).2.notifications = s.notifications := by
  obtain ⟨h1, h2⟩ := run_detection_pass_val_error d s h
  have hnot := run_detection_pass_notifications d s
  simp [run_detection, h1, h2, hnot]

theorem run_detection_cache_val_ok (d : EnvironmentDetector) (n : Bool) (s : DState)
    (o : String) (h : d.sysenv.get_os = .ok o) :
    deref (run_detection d n s).2 s.next =
      buildEnvironment d [("id", .str o), ("platform", .str d.sysenv.sys_platform)] := by
  obtain ⟨h1, h2⟩ := run_detection_pass_val_ok d s o h
  have hc := run_detection_pass_cache d s
  have hn := run_detection_pass_next d s
  cases n with
  | false => simp [run_detection, h1, h2]
  | true =>
      obtain ⟨f1, f2, f3, f4, f5⟩ := notify_plugins_cached_fields d (run_detection_pass d s).2.2 s.next hc
      have hne : s.next ≠ (run_detection_pass d s).2.2.next := by
        rw [hn]; exact Nat.ne_of_lt (Nat.lt_succ_self _)
      simp [run_detection, h1, f5 s.next hne, h2]

theorem environment_cached_eq (d : EnvironmentDetector) (s : DState) (c : Ref)
    (h : s.cache = some c) : environment d s = alloc s (deref s c) := by
  simp [environment, h]

theorem environment_uncached_eq (d : EnvironmentDetector) (s : DState)
    (h : s.cache = none) :
    environment d s =
      alloc (run_detection d true s).2 (deref (run_detection d true s).2 s.next) := by
  have h2 := (run_detection_post d true s).2.1
  simp [environment, h, h2]

/-! Lemmas about the plugin collection loop and the shape of a built snapshot. -/

theorem dictSet_length_le (d : EnvDict) (k : String) (v : EnvValue) :
    d.length ≤ (dictSet d k v).length := by
  induction d with
  | nil => simp [dictSet]
  | cons hd tl ih =>
      obtain ⟨k0, v0⟩ := hd
      by_cases h : k0 = k <;> simp [dictSet, h, ih]

theorem dictSet_length_pos (d : EnvDict) (k : String) (v : EnvValue) :
    0 < (dictSet d k v).length := by
  cases d with
  | nil => simp [dictSet]
  | cons hd tl =>
      obtain ⟨k0, v0⟩ := hd
      by_cases h : k0 = k <;> simp [dictSet, h]

theorem _detect_from_plugins_aux_calls (ps : List Plugin) (result : EnvDict)
    (calls : List String) :
    (_detect_from_plugins_aux ps result calls).2 = calls ++ ps.map Plugin.identifier := by
  induction ps generalizing result calls with
  | nil => simp [_detect_from_plugins_aux]
  | cons impl rest ih =>
      cases hadd : impl.get_additional_environment with
      | error u => simp [_detect_from_plugins_aux, hadd, ih]
      | ok v =>
          cases v with
          | vNone => simp [_detect_from_plugins_aux, hadd, ih]
          | str a => simp [_detect_from_plugins_aux, hadd, ih]
          | int a => simp [_detect_from_plugins_aux, hadd, ih]
          | dict entries =>
              by_cases hl : 0 < entries.length <;>
                simp [_detect_from_plugins_aux, hadd, hl, ih]

theorem _detect_from_plugins_aux_get_notmem (ps : List Plugin) (result : EnvDict)
    (calls : List String) (k : String) (hk : k ∉ ps.map Plugin.identifier) :
    dictGet (_detect_from_plugins_aux ps result calls).1 k = dictGet result k := by
  induction ps generalizing result calls with
  | nil => simp [_detect_from_plugins_aux]
  | cons impl rest ih =>
      have hk1 : k ≠ impl.identifier := by
        intro hh
        exact hk (by simp [hh])
      have hk2 : k ∉ rest.map Plugin.identifier := by
        intro hh
        exact hk (by simp [hh])
      cases hadd : impl.get_additional_environment with
      | error u => simp [_detect_from_plugins_aux, hadd, ih _ _ hk2]
      | ok v =>
          cases v with
          | vNone => simp [_detect_from_plugins_aux, hadd, ih _ _ hk2]
          | str a => simp [_detect_from_plugins_aux, hadd, ih _ _ hk2]
          | int a => simp [_detect_from_plugins_aux, hadd, ih _ _ hk2]
          | dict entries =>
              by_cases hl : 0 < entries.length <;>
                simp [_detect_from_plugins_aux, hadd, hl, ih _ _ hk2,
                  dictGet_dictSet_ne _ _ _ _ hk1]

theorem _detect_from_plugins_aux_get_ok (ps : List Plugin) (result : EnvDict)
    (calls : List String) (q : Plugin) (hq : q ∈ ps)
    (hnodup : (ps.map Plugin.identifier).Nodup)
    (e : EnvDict) (hqe : q.get_additional_environment = .ok (.dict e))
    (he : 0 < e.length) :
    dictGet (_detect_from_plugins_aux ps result calls).1 q.identifier = some (.dict e) := by
  induction ps generalizing result calls with
  | nil => cases hq
  | cons impl rest ih =>
      rw [List.map_cons, List.nodup_cons] at hnodup
      rcases List.mem_cons.mp hq with hq1 | hq1
      · subst hq1
        have hnm : q.identifier ∉ rest.map Plugin.identifier := hnodup.1
        simp [_detect_from_plugins_aux, hqe, he,
          _detect_from_plugins_aux_get_notmem rest _ _ _ hnm, dictGet_dictSet_self]
      · cases hadd : impl.get_additional_environment with
        | error u => simp [_detect_from_plugins_aux, hadd, ih _ _ hq1 hnodup.2]
        | ok v =>
            cases v with
            | vNone => simp [_detect_from_plugins_aux, hadd, ih _ _ hq1 hnodup.2]
            | str a => simp [_detect_from_plugins_aux, hadd, ih _ _ hq1 hnodup.2]
            | int a => simp [_detect_from_plugins_aux, hadd, ih _ _ hq1 hnodup.2]
            | dict entries =>
                by_cases hl : 0 < entries.length <;>
                  simp [_detect_from_plugins_aux, hadd, hl, ih _ _ hq1 hnodup.2]

theorem _detect_from_plugins_aux_get_nocontrib (ps : List Plugin) (result : EnvDict)
    (calls : List String) (p : Plugin) (hp : p ∈ ps)
    (hnodup : (ps.map Plugin.identifier).Nodup)
    (hpe : ∀ e, p.get_additional_environment = .ok (.dict e) → ¬ 0 < e.length)
    (hres : dictGet result p.identifier = none) :
    dictGet (_detect_from_plugins_aux ps result calls).1 p.identifier = none := by
  induction ps generalizing result calls with
  | nil => cases hp
  | cons impl rest ih =>
      rw [List.map_cons, List.nodup_cons] at hnodup
      rcases List.mem_cons.mp hp with hp1 | hp1
      · subst hp1
        have hnm : p.identifier ∉ rest.map Plugin.identifier := hnodup.1
        have hstep := _detect_from_plugins_aux_get_notmem rest result
          (calls ++ [p.identifier]) p.identifier hnm
        cases hadd : p.get_additional_environment with
        | error u => simp [_detect_from_plugins_aux, hadd,
            _detect_from_plugins_aux_get_notmem rest _ _ _ hnm, hres]
        | ok v =>
            cases v with
            | vNone => simp [_detect_from_plugins_aux, hadd,
                _detect_from_plugins_aux_get_notmem rest _ _ _ hnm, hres]
            | str a => simp [_detect_from_plugins_aux, hadd,
                _detect_from_plugins_aux_get_notmem rest _ _ _ hnm, hres]
            | int a => simp [_detect_from_plugins_aux, hadd,
                _detect_from_plugins_aux_get_notmem rest _ _ _ hnm, hres]
            | dict entries =>
                have hl : ¬ 0 < entries.length := hpe entries hadd
                simp [_detect_from_plugins_aux, hadd, hl,
                  _detect_from_plugins_aux_get_notmem rest _ _ _ hnm, hres]
      · have hpid : p.identifier ∈ rest.map Plugin.identifier :=
          List.mem_map_of_mem Plugin.identifier hp1
        have hne : p.identifier ≠ impl.identifier := by
          intro hh
          exact hnodup.1 (hh ▸ hpid)
        cases hadd : impl.get_additional_environment with
        | error u => simp [_detect_from_plugins_aux, hadd, ih _ _ hp1 hnodup.2 hres]
        | ok v =>
            cases v with
            | vNone => simp [_detect_from_plugins_aux, hadd, ih _ _ hp1 hnodup.2 hres]
            | str a => simp [_detect_from_plugins_aux, hadd, ih _ _ hp1 hnodup.2 hres]
            | int a => simp [_detect_from_plugins_aux, hadd, ih _ _ hp1 hnodup.2 hres]
            | dict entries =>
                by_cases hl : 0 < entries.length
                · have hres2 : dictGet (dictSet result impl.identifier (.dict entries))
                      p.identifier = none := by
                    rw [dictGet_dictSet_ne _ _ _ _ hne]
                    exact hres
                  simp [_detect_from_plugins_aux, hadd, hl, ih _ _ hp1 hnodup.2 hres2]
                · simp [_detect_from_plugins_aux, hadd, hl, ih _ _ hp1 hnodup.2 hres]

theorem _detect_from_plugins_aux_length_le (ps : List Plugin) (result : EnvDict)
    (calls : List String) :
    result.length ≤ (_detect_from_plugins_aux ps result calls).1.length := by
  induction ps generalizing result calls with
  | nil => simp [_detect_from_plugins_aux]
  | cons impl rest ih =>
      cases hadd : impl.get_additional_environment with
      | error u => simp [_detect_from_plugins_aux, hadd, ih]
      | ok v =>
          cases v with
          | vNone => simp [_detect_from_plugins_aux, hadd, ih]
          | str a => simp [_detect_from_plugins_aux, hadd, ih]
          | int a => simp [_detect_from_plugins_aux, hadd, ih]
          | dict entries =>
              by_cases hl : 0 < entries.length
              · simp only [_detect_from_plugins_aux, hadd, hl, if_true]
                exact Nat.le_trans (dictSet_length_le result impl.identifier (.dict entries))
                  (ih _ _)
              · simp [_detect_from_plugins_aux, hadd, hl, ih]

theorem _detect_from_plugins_aux_no_contrib (ps : List Plugin) (result : EnvDict)
    (calls : List String)
    (h : ∀ p ∈ ps, ∀ e, p.get_additional_environment = .ok (.dict e) → ¬ 0 < e.length) :
    (_detect_from_plugins_aux ps result calls).1 = result := by
  induction ps generalizing result calls with
  | nil => simp [_detect_from_plugins_aux]
  | cons impl rest ih =>
      have hrest : ∀ p ∈ rest, ∀ e, p.get_additional_environment = .ok (.dict e) →
          ¬ 0 < e.length := fun p hp => h p (List.mem_cons_of_mem _ hp)
      cases hadd : impl.get_additional_environment with
      | error u => simp [_detect_from_plugins_aux, hadd, ih _ _ hrest]
      | ok v =>
          cases v with
          | vNone => simp [_detect_from_plugins_aux, hadd, ih _ _ hrest]
          | str a => simp [_detect_from_plugins_aux, hadd, ih _ _ hrest]
          | int a => simp [_detect_from_plugins_aux, hadd, ih _ _ hrest]
          | dict entries =>
              have hl : ¬ 0 < entries.length :=
                h impl (List.mem_cons_self _ _) entries hadd
              simp [_detect_from_plugins_aux, hadd, hl, ih _ _ hrest]

theorem _detect_from_plugins_aux_contrib_pos (ps : List Plugin) (result : EnvDict)
    (calls : List String) (q : Plugin) (hq : q ∈ ps)
    (e : EnvDict) (hqe : q.get_additional_environment = .ok (.dict e))
    (he : 0 < e.length) :
    0 < (_detect_from_plugins_aux ps result calls).1.length := by
  induction ps generalizing result calls with
  | nil => cases hq
  | cons impl rest ih =>
      rcases List.mem_cons.mp hq with hq1 | hq1
      · subst hq1
        simp only [_detect_from_plugins_aux, hqe, he, if_true]
        exact Nat.lt_of_lt_of_le (dictSet_length_pos result q.identifier (.dict e))
          (_detect_from_plugins_aux_length_le rest _ _)
      · cases hadd : impl.get_additional_environment with
        | error u => simp [_detect_from_plugins_aux, hadd, ih _ _ hq1]
        | ok v =>
            cases v with
            | vNone => simp [_detect_from_plugins_aux, hadd, ih _ _ hq1]
            | str a => simp [_detect_from_plugins_aux, hadd, ih _ _ hq1]
            | int a => simp [_detect_from_plugins_aux, hadd, ih _ _ hq1]
            | dict entries =>
                by_cases hl : 0 < entries.length <;>
                  simp [_detect_from_plugins_aux, hadd, hl, ih _ _ hq1]

theorem _detect_from_plugins_nonempty_iff (ps : List Plugin) :
    0 < (_detect_from_plugins ps).1.length ↔
      ∃ q ∈ ps, ∃ e, q.get_additional_environment = .ok (.dict e) ∧ 0 < e.length := by
  constructor
  · intro h
    by_contra hno
    push_neg at hno
    have hnone : ∀ p ∈ ps, ∀ e, p.get_additional_environment = .ok (.dict e) →
        ¬ 0 < e.length := by
      intro p hp e hpe
      exact Nat.not_lt.mpr (hno p hp e hpe)
    rw [_detect_from_plugins, _detect_from_plugins_aux_no_contrib ps [] [] hnone] at h
    exact absurd h (by simp)
  · rintro ⟨q, hq, e, hqe, he⟩
    exact _detect_from_plugins_aux_contrib_pos ps [] [] q hq e hqe he

theorem buildEnvironment_get_os (d : EnvironmentDetector) (o : EnvDict) :
    dictGet (buildEnvironment d o) "os" = some (.dict o) := by
  simp only [buildEnvironment]
  split <;>
    simp [dictGet_dictSet_self, dictGet_dictSet_ne _ _ _ _ (by decide : ("os" : String) ≠ "plugins"),
      dictGet_dictSet_ne _ _ _ _ (by decide : ("os" : String) ≠ "hardware"),
      dictGet_dictSet_ne _ _ _ _ (by decide : ("os" : String) ≠ "python")]

theorem buildEnvironment_get_python (d : EnvironmentDetector) (o : EnvDict) :
    dictGet (buildEnvironment d o) "python" = some (.dict (_detect_python d.sysenv)) := by
  simp only [buildEnvironment]
  split <;>
    simp [dictGet_dictSet_self,
      dictGet_dictSet_ne _ _ _ _ (by decide : ("python" : String) ≠ "plugins"),
      dictGet_dictSet_ne _ _ _ _ (by decide : ("python" : String) ≠ "hardware")]

theorem buildEnvironment_get_hardware (d : EnvironmentDetector) (o : EnvDict) :
    dictGet (buildEnvironment d o) "hardware" = some (.dict (_detect_hardware d.sysenv)) := by
  simp only [buildEnvironment]
  split <;>
    simp [dictGet_dictSet_self,
      dictGet_dictSet_ne _ _ _ _ (by decide : ("hardware" : String) ≠ "plugins")]

theorem buildEnvironment_get_plugins (d : EnvironmentDetector) (o : EnvDict) :
    dictGet (buildEnvironment d o) "plugins" =
      if 0 < (_detect_from_plugins d.environment_plugins).1.length
      then some (.dict (_detect_from_plugins d.environment_plugins).1)
      else none := by
  simp only [buildEnvironment]
  split <;>
    simp_all [dictGet_dictSet_self, dictGet,
      dictGet_dictSet_ne _ _ _ _ (by decide : ("plugins" : String) ≠ "hardware"),
      dictGet_dictSet_ne _ _ _ _ (by decide : ("plugins" : String) ≠ "python"),
      dictGet_dictSet_ne _ _ _ _ (by decide : ("plugins" : String) ≠ "os")]

/-! Claim theorems. -/

/-- C1 counterexample: `run_detection` does not return an independent copy of
the cached snapshot — it returns the cache object itself (`return
environment` after `self._cache = environment`), so emptying the returned
record empties the internal cache: the cached record's length drops from 3 to
0. -/
theorem C1_run_detection_alias_counterexample :
    ((cacheValue (mutate (run_detection exDetector true initState).2
        (run_detection exDetector true initState).1 [])).getD []).length ≠
      ((cacheValue (run_detection exDetector true initState).2).getD []).length := by
  decide

/-- C1 (corrected): only the `environment` property read returns an
independent deep copy of the cached snapshot — mutating the record it returns
leaves the detector's internal cache unchanged.  `run_detection` instead
returns the cache object itself, so its callers can mutate the shared cache
(see the counterexample). -/
theorem C1_environment_read_is_independent_copy (d : EnvironmentDetector) (s : DState)
    (h : StateWF s = true) (v : EnvDict) :
    cacheValue (mutate (environment d s).2 (environment d s).1 v) =
      cacheValue (environment d s).2 := by
  cases hc : s.cache with
  | some c =>
      have hlt : c < s.next := by
        simp [StateWF, hc] at h
        exact h
      rw [environment_cached_eq d s c hc]
      simp [alloc, mutate, cacheValue, deref, heapWrite, hc, Nat.ne_of_lt hlt]
  | none =>
      rw [environment_uncached_eq d s hc]
      obtain ⟨h1, h2, h3, h4⟩ := run_detection_post d true s
      simp [alloc, mutate, cacheValue, deref, heapWrite, h2, Nat.ne_of_lt h3]

/-- C1 witness: the corrected statement applied to a concrete detector in its
initial state. -/
theorem C1_environment_read_is_independent_copy_witness :
    StateWF initState = true ∧
    cacheValue (mutate (environment exDetector initState).2
        (environment exDetector initState).1 []) =
      cacheValue (environment exDetector initState).2 :=
  ⟨rfl, C1_environment_read_is_independent_copy exDetector initState rfl []⟩

/-- C2 (confirmed): the `environment` read is a total operation of the
embedding and, when every probe lookup and every plugin detection call
raises, it returns the structurally empty but well-formed record `[]`, which
is also stored as the cache — a degraded value, not an absence and not an
exception. -/
theorem C2_environment_read_total_under_failures (d : EnvironmentDetector) (s : DState)
    (hcache : s.cache = none)
    (hos : d.sysenv.get_os = .error ())
    (hpy : d.sysenv.python_version = .error ())
    (hvenv : d.sysenv.virtualenv_check = .error ())
    (hpip : d.sysenv.pip_version = .error ())
    (hcpu : d.sysenv.cpu_count = .error ())
    (hfreq : d.sysenv.cpu_freq = .error ())
    (hram : d.sysenv.virtual_memory = .error ())
    (hplug : ∀ p ∈ d.environment_plugins, p.get_additional_environment = .error ()) :
    deref (environment d s).2 (environment d s).1 = [] ∧
    cacheValue (environment d s).2 = some [] := by
  rw [environment_uncached_eq d s hcache]
  obtain ⟨hval, hnots⟩ := run_detection_cache_val_error d true s hos
  obtain ⟨h1, h2, h3, h4⟩ := run_detection_post d true s
  constructor
  · rw [deref_alloc_self]
    exact hval
  · rw [cacheValue_alloc _ _ s.next h2 h3]
    simp [cacheValue, h2, hval]

/-- C2 witness: the totality statement applied to a detector whose oracles
and single plugin all raise, read from the initial (uncached) state. -/
theorem C2_environment_read_total_under_failures_witness :
    initState.cache = none ∧
    deref (environment failDetector initState).2 (environment failDetector initState).1 = [] ∧
    cacheValue (environment failDetector initState).2 = some [] := by
  refine ⟨rfl, ?_⟩
  refine C2_environment_read_total_under_failures failDetector initState rfl rfl rfl rfl rfl rfl rfl rfl ?_
  intro p hp
  have hp2 : p ∈ [failPlugin] := hp
  rw [List.mem_singleton] at hp2
  subst hp2
  rfl

/-- C3 (confirmed): when the one uncontained exception of a pass (the
`get_os()` lookup inside `_detect_os`, which has no handler of its own)
raises, `run_detection` does not propagate it: whatever the prior cache held,
it stores a fresh empty record as the cache and returns that very record, and
plugin notification is skipped, leaving the notification log unchanged. -/
theorem C3_run_detection_contains_orchestration_failure (d : EnvironmentDetector)
    (n : Bool) (s : DState) (h : d.sysenv.get_os = .error ()) :
    deref (run_detection d n s).2 (run_detection d n s).1 = [] ∧
    (run_detection d n s).2.cache = some (run_detection d n s).1 ∧
    cacheValue (run_detection d n s).2 = some [] ∧
    (run_detection d n s).2.notifications = s.notifications := by
  obtain ⟨h1, h2, h3, h4⟩ := run_detection_post d n s
  obtain ⟨hval, hnots⟩ := run_detection_cache_val_error d n s h
  refine ⟨?_, ?_, ?_, hnots⟩
  · rw [h1]
    exact hval
  · rw [h1]
    exact h2
  · simp [cacheValue, h2, hval]

/-- C3 witness: the containment statement applied to the all-failing detector
over the initial state. -/
theorem C3_run_detection_contains_orchestration_failure_witness :
    failDetector.sysenv.get_os = .error () ∧
    cacheValue (run_detection failDetector false initState).2 = some [] :=
  ⟨rfl, (C3_run_detection_contains_orchestration_failure failDetector false initState rfl).2.2.1⟩

/-- C4 (confirmed): in the plugin collection loop every plugin is invoked
exactly once in registration order even when some raise; a non-raising plugin
returning a non-empty mapping appears under its identifier; a raising plugin
is absent from the result; and the `os`/`python`/`hardware` categories of a
built snapshot do not depend on the plugins at all. -/
theorem C4_plugin_failure_isolation (ps : List Plugin)
    (hnodup : (ps.map Plugin.identifier).Nodup)
    (p q : Plugin) (hp : p ∈ ps) (hq : q ∈ ps)
    (hpe : p.get_additional_environment = .error ())
    (e : EnvDict) (hqe : q.get_additional_environment = .ok (.dict e))
    (he : 0 < e.length) :
    (_detect_from_plugins ps).2 = ps.map Plugin.identifier ∧
    dictGet (_detect_from_plugins ps).1 q.identifier = some (.dict e) ∧
    dictGet (_detect_from_plugins ps).1 p.identifier = none ∧
    ∀ (se : SysEnv) (o : EnvDict),
      dictGet (buildEnvironment { sysenv := se, environment_plugins := ps } o) "os" =
          some (.dict o) ∧
      dictGet (buildEnvironment { sysenv := se, environment_plugins := ps } o) "python" =
          some (.dict (_detect_python se)) ∧
      dictGet (buildEnvironment { sysenv := se, environment_plugins := ps } o) "hardware" =
          some (.dict (_detect_hardware se)) := by
  refine ⟨?_, ?_, ?_, ?_⟩
  · simpa using _detect_from_plugins_aux_calls ps [] []
  · exact _detect_from_plugins_aux_get_ok ps [] [] q hq hnodup e hqe he
  · refine _detect_from_plugins_aux_get_nocontrib ps [] [] p hp hnodup ?_ rfl
    intro e' he'
    rw [hpe] at he'
    cases he'
  · intro se o
    exact ⟨buildEnvironment_get_os _ o, buildEnvironment_get_python _ o,
      buildEnvironment_get_hardware _ o⟩

/-- C4 witness: a raising plugin next to a contributing plugin; the result
holds only the contributing plugin's facts. -/
theorem C4_plugin_failure_isolation_witness :
    ([failPlugin, goodPlugin].map Plugin.identifier).Nodup ∧
    dictGet (_detect_from_plugins [failPlugin, goodPlugin]).1 goodPlugin.identifier =
      some (.dict [("key", .str "value")]) ∧
    dictGet (_detect_from_plugins [failPlugin, goodPlugin]).1 failPlugin.identifier = none := by
  have h := C4_plugin_failure_isolation [failPlugin, goodPlugin] (by decide)
    failPlugin goodPlugin (List.mem_cons_self _ _)
    (List.mem_cons_of_mem _ (List.mem_cons_self _ _)) rfl
    [("key", .str "value")] rfl (by decide)
  exact ⟨by decide, h.2.1, h.2.2.1⟩

/-- C5 (confirmed): in the snapshot cached by a completed detection pass the
top-level `plugins` key is present iff at least one plugin returned a
non-empty mapping, and a plugin that raises or returns `None`, an empty dict
or a non-dict value contributes no entry to the plugins section. -/
theorem C5_plugins_key_iff_contribution (d : EnvironmentDetector) (n : Bool) (s : DState)
    (hok : (run_detection_pass d s).1 = true)
    (hnodup : (d.environment_plugins.map Plugin.identifier).Nodup) :
    ((dictGet ((cacheValue (run_detection d n s).2).getD []) "plugins").isSome = true ↔
      ∃ q ∈ d.environment_plugins, ∃ e,
        q.get_additional_environment = .ok (.dict e) ∧ 0 < e.length) ∧
    ∀ p ∈ d.environment_plugins,
      (∀ e, p.get_additional_environment = .ok (.dict e) → ¬ 0 < e.length) →
      dictGet (_detect_from_plugins d.environment_plugins).1 p.identifier = none := by
  obtain ⟨o, ho⟩ := run_detection_pass_ok_get_os d s hok
  obtain ⟨h1, h2, h3, h4⟩ := run_detection_post d n s
  have hval := run_detection_cache_val_ok d n s o ho
  constructor
  · have hcv : (cacheValue (run_detection d n s).2).getD [] =
        buildEnvironment d [("id", .str o), ("platform", .str d.sysenv.sys_platform)] := by
      simp [cacheValue, h2, hval]
    rw [hcv, buildEnvironment_get_plugins, ← _detect_from_plugins_nonempty_iff]
    by_cases hl : 0 < (_detect_from_plugins d.environment_plugins).1.length <;> simp [hl]
  · intro p hp hno
    exact _detect_from_plugins_aux_get_nocontrib d.environment_plugins [] [] p hp hnodup hno rfl

/-- C5 witness: with one raising and one contributing plugin the `plugins`
key of the cached snapshot is present, matching the existing contributor. -/
theorem C5_plugins_key_iff_contribution_witness :
    (run_detection_pass exDetector2 initState).1 = true ∧
    (exDetector2.environment_plugins.map Plugin.identifier).Nodup ∧
    (((dictGet ((cacheValue (run_detection exDetector2 false initState).2).getD [])
        "plugins").isSome = true ↔
      ∃ q ∈ exDetector2.environment_plugins, ∃ e,
        q.get_additional_environment = .ok (.dict e) ∧ 0 < e.length) ∧
    ∀ p ∈ exDetector2.environment_plugins,
      (∀ e, p.get_additional_environment = .ok (.dict e) → ¬ 0 < e.length) →
      dictGet (_detect_from_plugins exDetector2.environment_plugins).1 p.identifier = none) :=
  ⟨rfl, by decide, C5_plugins_key_iff_contribution exDetector2 false initState rfl (by decide)⟩

/-- C6 (confirmed): after `run_detection` with notification enabled completes
a detection pass, every plugin implementation receives exactly one
`on_environment_detected` call, in registration order, carrying a snapshot
value-equal to the record `run_detection` returns to its caller. -/
theorem C6_notification_delivery (d : EnvironmentDetector) (s : DState)
    (hok : (run_detection_pass d s).1 = true) :
    (run_detection d true s).2.notifications =
      s.notifications ++ d.environment_plugins.map
        (fun p => (p.identifier,
          deref (run_detection d true s).2 (run_detection d true s).1)) := by
  have hb : ((run_detection_pass d s).1 && true) = true := by simp [hok]
  have hc := run_detection_pass_cache d s
  have hn := run_detection_pass_next d s
  have hr := run_detection_pass_ref d s
  have hnots := run_detection_pass_notifications d s
  obtain ⟨f1, f2, f3, f4, f5⟩ :=
    notify_plugins_cached_fields d (run_detection_pass d s).2.2 s.next hc
  have hne : s.next ≠ (run_detection_pass d s).2.2.next := by
    rw [hn]
    exact Nat.ne_of_lt (Nat.lt_succ_self _)
  have hderef : deref (run_detection d true s).2 (run_detection d true s).1 =
      deref (run_detection_pass d s).2.2 s.next := by
    simp [run_detection, hb, hr, f5 s.next hne]
  rw [hderef]
  simp [run_detection, hb, f4, hnots]

/-- C6 witness: the delivery statement at a concrete detector with a raising
and a non-raising plugin. -/
theorem C6_notification_delivery_witness :
    (run_detection_pass exDetector2 initState).1 = true ∧
    (run_detection exDetector2 true initState).2.notifications =
      initState.notifications ++ exDetector2.environment_plugins.map
        (fun p => (p.identifier,
          deref (run_detection exDetector2 true initState).2
            (run_detection exDetector2 true initState).1)) :=
  ⟨rfl, C6_notification_delivery exDetector2 initState rfl⟩

/-- C7 counterexample: with a raising CPU-count lookup but working frequency
and RAM lookups (1500 / 4096), the hardware record's `freq` does NOT carry
the real looked-up value — the single `try` block around all three psutil
calls aborts and every field stays "unknown". -/
theorem C7_hardware_freq_not_real_counterexample :
    dictGet (_detect_hardware cpuFailSysEnv) "freq" ≠ some (.int 1500) := by
  intro h
  have h2 : some (EnvValue.str "unknown") = some (EnvValue.int 1500) := h
  injection h2 with h3
  exact EnvValue.noConfusion h3

/-- C7 (corrected): if the CPU-count lookup raises, then `cores`, `freq` and
`ram` are all "unknown": the three lookups share one fault domain, so a raise
in one degrades all three; per-field independent degradation only applies to
lookups that return an unavailable (falsy / attribute-less) value without
raising. -/
theorem C7_hardware_raise_degrades_all_fields (se : SysEnv)
    (h : se.cpu_count = .error ()) :
    _detect_hardware se =
      [("cores", .str "unknown"), ("freq", .str "unknown"), ("ram", .str "unknown")] := by
  simp [_detect_hardware, h]

/-- C7 witness: the corrected statement at the concrete oracles of the
counterexample. -/
theorem C7_hardware_raise_degrades_all_fields_witness :
    cpuFailSysEnv.cpu_count = .error () ∧
    _detect_hardware cpuFailSysEnv =
      [("cores", .str "unknown"), ("freq", .str "unknown"), ("ram", .str "unknown")] :=
  ⟨rfl, C7_hardware_raise_degrades_all_fields cpuFailSysEnv rfl⟩

/-- C8 (confirmed): `notify_plugins` on an uninitialized cache triggers
exactly one detection pass — with notification disabled, so the nested pass
adds no deliveries of its own — and then delivers the freshly cached snapshot
to each plugin exactly once, in order. -/
theorem C8_notify_plugins_uncached_one_pass (d : EnvironmentDetector) (s : DState)
    (h : s.cache = none) :
    (notify_plugins d s).passes = s.passes + 1 ∧
    ∃ c, (notify_plugins d s).cache = some c ∧
      (notify_plugins d s).notifications =
        s.notifications ++ d.environment_plugins.map
          (fun p => (p.identifier, deref (notify_plugins d s) c)) := by
  rw [notify_plugins_uncached_eq d s h]
  have hc := run_detection_pass_cache d s
  have hn := run_detection_pass_next d s
  have hp := run_detection_pass_passes d s
  have hnots := run_detection_pass_notifications d s
  obtain ⟨f1, f2, f3, f4, f5⟩ :=
    notify_plugins_cached_fields d (run_detection_pass d s).2.2 s.next hc
  have hne : s.next ≠ (run_detection_pass d s).2.2.next := by
    rw [hn]
    exact Nat.ne_of_lt (Nat.lt_succ_self _)
  refine ⟨by rw [f3, hp], s.next, f1, ?_⟩
  rw [f5 s.next hne, f4, hnots]

/-- C8 witness: the lazy-notification statement at a concrete detector with
two plugins, starting from the uninitialized state. -/
theorem C8_notify_plugins_uncached_one_pass_witness :
    initState.cache = none ∧
    ((notify_plugins exDetector2 initState).passes = initState.passes + 1 ∧
    ∃ c, (notify_plugins exDetector2 initState).cache = some c ∧
      (notify_plugins exDetector2 initState).notifications =
        initState.notifications ++ exDetector2.environment_plugins.map
          (fun p => (p.identifier, deref (notify_plugins exDetector2 initState) c))) :=
  ⟨rfl, C8_notify_plugins_uncached_one_pass exDetector2 initState rfl⟩

/-- C9 (confirmed): after a completed detection pass the cached snapshot
contains every top-level category key — `os`, `python` and `hardware` —
whatever the individual lookups inside those categories returned. -/
theorem C9_category_keys_always_present (d : EnvironmentDetector) (n : Bool) (s : DState)
    (hok : (run_detection_pass d s).1 = true) :
    ∃ env, cacheValue (run_detection d n s).2 = some env ∧
      (dictGet env "os").isSome = true ∧
      (dictGet env "python").isSome = true ∧
      (dictGet env "hardware").isSome = true := by
  obtain ⟨o, ho⟩ := run_detection_pass_ok_get_os d s hok
  obtain ⟨h1, h2, h3, h4⟩ := run_detection_post d n s
  have hval := run_detection_cache_val_ok d n s o ho
  refine ⟨buildEnvironment d [("id", .str o), ("platform", .str d.sysenv.sys_platform)],
    ?_, ?_, ?_, ?_⟩
  · simp [cacheValue, h2, hval]
  · simp [buildEnvironment_get_os]
  · simp [buildEnvironment_get_python]
  · simp [buildEnvironment_get_hardware]

/-- C9 witness: the category-key statement at a concrete working detector. -/
theorem C9_category_keys_always_present_witness :
    (run_detection_pass exDetector initState).1 = true ∧
    ∃ env, cacheValue (run_detection exDetector false initState).2 = some env ∧
      (dictGet env "os").isSome = true ∧
      (dictGet env "python").isSome = true ∧
      (dictGet env "hardware").isSome = true :=
  ⟨rfl, C9_category_keys_always_present exDetector false initState rfl⟩

/-- C10 (confirmed): a present cache — here the empty record left behind by a
degraded pass — satisfies every later `environment` read without triggering a
new detection pass: the pass counter is unchanged and the caller receives a
fresh object (a different reference) holding that empty record. -/
theorem C10_degraded_cache_is_sticky (d : EnvironmentDetector) (s : DState) (c : Ref)
    (hw : StateWF s = true) (h : s.cache = some c) (hv : deref s c = []) :
    (environment d s).2.passes = s.passes ∧
    deref (environment d s).2 (environment d s).1 = [] ∧
    cacheValue (environment d s).2 = some [] ∧
    (environment d s).1 ≠ c := by
  have hlt : c < s.next := by
    simp [StateWF, h] at hw
    exact hw
  rw [environment_cached_eq d s c h]
  refine ⟨rfl, ?_, ?_, ?_⟩
  · rw [deref_alloc_self]
    exact hv
  · rw [cacheValue_alloc s _ c h hlt]
    simp [cacheValue, h, hv]
  · show s.next ≠ c
    exact (Nat.ne_of_lt hlt).symm

/-- C10 witness: the stickiness statement at the degraded state an
all-failing detector leaves behind. -/
theorem C10_degraded_cache_is_sticky_witness :
    StateWF (run_detection failDetector false initState).2 = true ∧
    (run_detection failDetector false initState).2.cache = some 0 ∧
    deref (run_detection failDetector false initState).2 0 = [] ∧
    (environment failDetector (run_detection failDetector false initState).2).2.passes =
      (run_detection failDetector false initState).2.passes :=
  ⟨rfl, rfl, rfl,
    (C10_degraded_cache_is_sticky failDetector
      (run_detection failDetector false initState).2 0 rfl rfl rfl).1⟩

end OctoPrintEnvironment
